import Mathlib

/-!
Shallow embedding of `src/server.py` (the taibai MCP server core): the
command translation from typed tool arguments to `dedao-dl` argument
vectors, the precondition probes (binary presence, authentication,
version compatibility), the process-executor semantics, and the
post-download file relocation, together with theorems settling the
spec claims about them.

Modelling conventions:
- Python `Optional[T]` fields become `Option T`; Python truthiness on
  them (`if args.cookie:` etc.) is `truthyBool` / `truthyStr`.
- The external world (whether the binary is present, and what each
  captured `dedao-dl` run returns) is a `World` record; a `dedao-dl`
  subprocess call is recorded as an `Invocation` (argv, working
  directory, whether output is captured).  A trace is the list of
  `subprocess.run` attempts on the external binary a function makes,
  in order.
- Python exceptions become the `PyError` sum; a function that can raise
  returns `Except PyError α`.
- The filesystem slice the relocator touches (the `~/.taibai/output`
  directory and the one target directory of a run) is the `FS` record;
  a directory listing is an association list of (name, entry) with
  distinct names.
-/

namespace Taibai

/-- Python truthiness of an `Optional[bool]` field (`None` and `False` falsy). -/
def truthyBool : Option Bool → Bool
  | some b => b
  | none => false

/-- Python truthiness of an `Optional[str]` field (`None` and `""` falsy). -/
def truthyStr : Option String → Bool
  | some s => !s.isEmpty
  | none => false

/-- The private state directory `~/.taibai` (`TAIBAI_DIR` in the source). -/
def TAIBAI_DIR : String := "~/.taibai"

/-- Default destination vault directory (`DEFAULT_VAULT_DIR`), used when the
`DEDAO_DOWNLOAD_DIR` environment variable is unset. -/
def DEFAULT_VAULT_DIR : String := "~/ideaverse-zero-2/Atlas/Sources/Dedao/Courses"

/-- Course download formats (`Literal["pdf", "markdown", "mp3"]`). -/
inductive CourseFormat
  | pdf
  | markdown
  | mp3
  deriving DecidableEq, Repr

/-- Article download formats (`Literal["pdf", "markdown"]`): no `mp3`. -/
inductive ArticleFormat
  | pdf
  | markdown
  deriving DecidableEq, Repr

/-- Pydantic validation of a course `format` string against its `Literal` type. -/
def parseCourseFormat : String → Option CourseFormat
  | "pdf" => some .pdf
  | "markdown" => some .markdown
  | "mp3" => some .mp3
  | _ => none

/-- Pydantic validation of an article `format` string against its `Literal` type. -/
def parseArticleFormat : String → Option ArticleFormat
  | "pdf" => some .pdf
  | "markdown" => some .markdown
  | _ => none

/-- Model of `LoginArgs` (qrcode defaults to `False`, cookie to `None`). -/
structure LoginArgs where
  qrcode : Option Bool
  cookie : Option String
  deriving DecidableEq, Repr

/-- Model of `ListCoursesArgs`. -/
structure ListCoursesArgs where
  include_details : Option Bool
  deriving DecidableEq, Repr

/-- Model of `CourseDetailsArgs`. -/
structure CourseDetailsArgs where
  course_id : String
  deriving DecidableEq, Repr

/-- Model of `DownloadCourseArgs` (`format` defaults to `"markdown"` but the caller may
pass an explicit `None`). -/
structure DownloadCourseArgs where
  course_id : String
  format : Option CourseFormat
  output_dir : Option String
  deriving DecidableEq, Repr

/-- Model of `ArticleDetailsArgs`. -/
structure ArticleDetailsArgs where
  article_id : String
  deriving DecidableEq, Repr

/-- Model of `DownloadArticleArgs`. -/
structure DownloadArticleArgs where
  article_id : String
  format : Option ArticleFormat
  output_dir : Option String
  deriving DecidableEq, Repr

/-- The course `format_map = {"mp3": "1", "pdf": "2", "markdown": "3"}` of
`dedao_download_course`. -/
def format_map_course : CourseFormat → String
  | .mp3 => "1"
  | .pdf => "2"
  | .markdown => "3"

/-- The article `format_map = {"pdf": "2", "markdown": "3"}` of
`dedao_download_article`. -/
def format_map_article : ArticleFormat → String
  | .pdf => "2"
  | .markdown => "3"

/-- Argument vector built by `dedao_list_courses`. -/
def list_courses_cmd_args (args : ListCoursesArgs) : List String :=
  if truthyBool args.include_details then ["course", "-d"] else ["course"]

/-- Argument vector built by `dedao_course_details`. -/
def course_details_cmd_args (args : CourseDetailsArgs) : List String :=
  ["detail", args.course_id]

/-- Argument vector built by `dedao_download_course`: `["dl", id]`, then
`["-t", code]` when a format is set (`if args.format:`), then the
unconditional `-c` community-comments flag. -/
def download_course_cmd_args (args : DownloadCourseArgs) : List String :=
  (["dl", args.course_id] ++
    (match args.format with
      | some f => ["-t", format_map_course f]
      | none => [])) ++ ["-c"]

/-- Argument vector built by `dedao_article_details`. -/
def article_details_cmd_args (args : ArticleDetailsArgs) : List String :=
  ["article", "detail", args.article_id]

/-- Argument vector built by `dedao_download_article`: `["article", "dl", id]`,
then `["-t", code]` when a format is set. -/
def download_article_cmd_args (args : DownloadArticleArgs) : List String :=
  ["article", "dl", args.article_id] ++
    (match args.format with
      | some f => ["-t", format_map_article f]
      | none => [])

/-! ## Version comparison (`check_version_compatibility`) -/

/-- Split a character list on the dot separators. -/
def splitDots : List Char → List (List Char)
  | [] => [[]]
  | c :: rest =>
      let r := splitDots rest
      if c = '.' then [] :: r
      else
        match r with
        | [] => [[c]]
        | h :: t => (c :: h) :: t

/-- Decimal value of one release component (components of a release version
are digit runs). -/
def parseComponent (cs : List Char) : Nat :=
  cs.foldl (fun n c => n * 10 + (c.toNat - 48)) 0

/-- Embeds `packaging.version.parse` restricted to release versions: the dotted
numeric components. -/
def parseVersion (s : String) : List Nat :=
  (splitDots s.data).map parseComponent

/-- Strict comparison of release component lists with zero padding, as
`packaging.version.Version` compares releases (`1.2` equals `1.2.0`). -/
def versionLt : List Nat → List Nat → Bool
  | [], bs => bs.any (fun b => 0 < b)
  | a :: as, [] => if 0 < a then false else versionLt as []
  | a :: as, b :: bs =>
      if a < b then true else if b < a then false else versionLt as bs

/-- The upgrade hint appended to the outdated-version message. -/
def update_hint : String :=
  "Update with: go install github.com/yann0917/dedao-dl@latest"

/-- Embeds `check_version_compatibility`, with the two subprocess probes
(`get_dedao_dl_version`, `get_latest_dedao_dl_version`) abstracted as its
`installed` / `latest` inputs.  The `ImportError` string-comparison fallback
is dead code (`packaging` is imported at module top), so the semantic
comparison branch is the behaviour. -/
def check_version_compatibility (installed latest : Option String) : Bool × String :=
  match installed with
  | none => (false, "Unable to determine installed dedao-dl version")
  | some i =>
    match latest with
    | none => (true, "Using dedao-dl v" ++ i)
    | some l =>
      if versionLt (parseVersion i) (parseVersion l) then
        (true, "dedao-dl v" ++ i ++ " is installed (latest: v" ++ l ++ ")\n" ++ update_hint)
      else
        (true, "Using dedao-dl v" ++ i ++ " (up to date)")

/-! ## File relocation (`move_downloaded_files`) -/

/-- A directory entry: a file with contents, or a subdirectory (its own
contents are irrelevant to the relocator, which moves it wholesale; we keep
a tag so files and directories are distinguishable). -/
inductive Entry
  | file (content : String)
  | dir (tag : String)
  deriving DecidableEq, Repr

/-- Directory listing: association list of entry names to entries. -/
abbrev Listing := List (String × Entry)

/-- Remove the entry named `n` from a listing (`target_path.unlink()` /
`shutil.rmtree(target_path)`: for a directory, deleting the name deletes the
whole subtree). -/
def removeName (n : String) : Listing → Listing
  | [] => []
  | (m, e) :: rest =>
      if m = n then removeName n rest else (m, e) :: removeName n rest

/-- Directory lookup by name (first match). -/
def lookupName (n : String) : Listing → Option Entry
  | [] => none
  | (m, e) :: rest => if m = n then some e else lookupName n rest

/-- The `for item in source_dir.iterdir()` loop: for each source entry,
remove any existing destination entry of the same name, then move the
source entry to the destination under its original name. -/
def moveLoop : Listing → Listing → Listing
  | [], dest => dest
  | (n, e) :: rest, dest => moveLoop rest (removeName n dest ++ [(n, e)])

/-- The filesystem slice `move_downloaded_files` touches: the fixed output
subdirectory `~/.taibai/output` and the target directory of this run. -/
structure FS where
  outputExists : Bool
  output : Listing
  destExists : Bool
  dest : Listing
  deriving Repr

/-- Embeds `move_downloaded_files`: no-op when `~/.taibai/output` does not exist;
otherwise create the target directory, move every entry across (overwriting
collisions), then remove the now-empty output directory (the `rmdir`
succeeds because every entry was moved out; `OSError` would be swallowed). -/
def move_downloaded_files (fs : FS) : FS :=
  if fs.outputExists then
    { outputExists := false
      output := []
      destExists := true
      dest := moveLoop fs.output fs.dest }
  else
    fs

/-! ## Process model -/

/-- One `subprocess.run` attempt on the external binary: full argv, working
directory (`none` = the server process's inherited working directory, i.e.
no `cwd=` argument was passed), and whether output is captured. -/
structure Invocation where
  argv : List String
  cwd : Option String
  captured : Bool
  deriving DecidableEq, Repr

/-- Python exceptions this core can raise or propagate. -/
inductive PyError
  | runtimeError (msg : String)
  | fileNotFound
  | calledProcessError (returncode : Nat) (stderr : String)
  deriving DecidableEq, Repr

/-- The message attached to each exception.  `fileNotFound` carries the
interpreter-generated launch-failure text (Python renders the file name in
quotation marks; they are elided here); the code itself puts no text into
it. -/
def pyErrorMessage : PyError → String
  | .runtimeError msg => msg
  | .fileNotFound => "[Errno 2] No such file or directory: dedao-dl"
  | .calledProcessError rc _ =>
      "Command dedao-dl returned non-zero exit status " ++ toString rc

/-- Whether `pat` occurs as a contiguous substring of `s`. -/
def containsSub (s pat : String) : Bool :=
  s.data.tails.any (fun t => pat.data.isPrefixOf t)

/-- The external world: whether the `dedao-dl` binary can be launched, and
what each captured run of it returns (exit code, stdout, stderr) as a
function of the full argv. -/
structure World where
  binaryPresent : Bool
  run : List String → Nat × String × String

/-- Outcome of the presence probe `dedao-dl --help` (true iff the binary
launches and the probe exits 0). -/
def installedB (w : World) : Bool :=
  w.binaryPresent && ((w.run ["dedao-dl", "--help"]).1 == 0)

/-- The presence-probe invocation: `subprocess.run(["dedao-dl", "--help"],
capture_output=True, check=True)` — note: no `cwd=` argument. -/
def helpInv : Invocation := ⟨["dedao-dl", "--help"], none, true⟩

/-- Embeds `check_dedao_dl`: run the presence probe, catching both
`CalledProcessError` and `FileNotFoundError`. -/
def check_dedao_dl (w : World) : Bool × List Invocation :=
  (installedB w, [helpInv])

/-- The authentication-probe invocation: `subprocess.run(["dedao-dl", "who"],
cwd=TAIBAI_DIR, capture_output=True, check=True)`. -/
def whoInv : Invocation := ⟨["dedao-dl", "who"], some TAIBAI_DIR, true⟩

/-- Embeds `check_dedao_auth`: run `dedao-dl who` in the private state directory.
A non-zero exit (`CalledProcessError`) is caught and yields `false`; a
launch failure (`FileNotFoundError`, binary absent) is NOT caught and
propagates. -/
def check_dedao_auth (w : World) : Except PyError Bool × List Invocation :=
  (if w.binaryPresent then .ok ((w.run ["dedao-dl", "who"]).1 == 0)
   else .error .fileNotFound,
   [whoInv])

/-- The `RuntimeError` message raised by `execute_dedao_dl` when the binary
is missing. -/
def not_installed_msg : String :=
  "dedao-dl is not installed. Please install it first: go install github.com/yann0917/dedao-dl@latest"

/-- Embeds `execute_dedao_dl`: check the binary is present (else `RuntimeError` with
the install instruction, before spawning the command itself); then run
`["dedao-dl"] ++ args` in `cwd or TAIBAI_DIR` — interactively (no capture,
exit status ignored, generic completion string) or captured (stdout
returned; `check=True` raises `CalledProcessError` on non-zero exit). -/
def execute_dedao_dl (w : World) (args : List String) (interactive : Bool)
    (cwd : Option String) : Except PyError String × List Invocation :=
  let (ok, t1) := check_dedao_dl w
  if !ok then
    (.error (.runtimeError not_installed_msg), t1)
  else
    let working_dir := cwd.getD TAIBAI_DIR
    if interactive then
      (.ok "Interactive command completed",
       t1 ++ [⟨["dedao-dl"] ++ args, some working_dir, false⟩])
    else
      let r := w.run (["dedao-dl"] ++ args)
      (if r.1 == 0 then .ok r.2.1 else .error (.calledProcessError r.1 r.2.2),
       t1 ++ [⟨["dedao-dl"] ++ args, some working_dir, true⟩])

/-! ## Tool dispatchers -/

/-- The `RuntimeError` message raised by every auth-gated tool when the
authentication probe reports not logged in. -/
def not_logged_in_msg : String :=
  "Not logged in to Dedao. Please use dedao_login first."

/-- Embeds `dedao_login`: `["login"]`, plus `-q` and an interactive run when
`qrcode` is truthy (the cookie is never consulted on that path); otherwise
`--cookie VALUE` is appended when `cookie` is truthy and the run is
captured, returning its stdout (or `"Login successful"` when stdout is
empty, via `result or "Login successful"`). -/
def dedao_login (w : World) (args : LoginArgs) :
    Except PyError String × List Invocation :=
  if truthyBool args.qrcode then
    let (r, t) := execute_dedao_dl w ["login", "-q"] true none
    match r with
    | .ok _ => (.ok "QR code login completed. Please check if login was successful.", t)
    | .error e => (.error e, t)
  else
    let cmd_args :=
      if truthyStr args.cookie then ["login", "--cookie", args.cookie.getD ""]
      else ["login"]
    let (r, t) := execute_dedao_dl w cmd_args false none
    match r with
    | .ok s => (.ok (if s.isEmpty then "Login successful" else s), t)
    | .error e => (.error e, t)

/-- Embeds `dedao_list_courses`: auth gate, then a captured `course [-d]` run. -/
def dedao_list_courses (w : World) (args : ListCoursesArgs) :
    Except PyError String × List Invocation :=
  let (a, t1) := check_dedao_auth w
  match a with
  | .error e => (.error e, t1)
  | .ok authed =>
    if !authed then (.error (.runtimeError not_logged_in_msg), t1)
    else
      let (r, t2) := execute_dedao_dl w (list_courses_cmd_args args) false none
      (r, t1 ++ t2)

/-- Embeds `dedao_course_details`: auth gate, then a captured `detail ID` run. -/
def dedao_course_details (w : World) (args : CourseDetailsArgs) :
    Except PyError String × List Invocation :=
  let (a, t1) := check_dedao_auth w
  match a with
  | .error e => (.error e, t1)
  | .ok authed =>
    if !authed then (.error (.runtimeError not_logged_in_msg), t1)
    else
      let (r, t2) := execute_dedao_dl w (course_details_cmd_args args) false none
      (r, t1 ++ t2)

/-- Embeds `dedao_article_details`: auth gate, then a captured `article detail ID`
run. -/
def dedao_article_details (w : World) (args : ArticleDetailsArgs) :
    Except PyError String × List Invocation :=
  let (a, t1) := check_dedao_auth w
  match a with
  | .error e => (.error e, t1)
  | .ok authed =>
    if !authed then (.error (.runtimeError not_logged_in_msg), t1)
    else
      let (r, t2) := execute_dedao_dl w (article_details_cmd_args args) false none
      (r, t1 ++ t2)

/-- Embeds `dedao_download_course`: auth gate, captured `dl ID [-t CODE] -c` run
from `~/.taibai`, then relocation into `output_dir or DEFAULT_VAULT_DIR`
and a confirmation string naming that directory. -/
def dedao_download_course (w : World) (fs : FS) (args : DownloadCourseArgs) :
    (Except PyError String × List Invocation) × FS :=
  let (a, t1) := check_dedao_auth w
  match a with
  | .error e => ((.error e, t1), fs)
  | .ok authed =>
    if !authed then ((.error (.runtimeError not_logged_in_msg), t1), fs)
    else
      let (r, t2) := execute_dedao_dl w (download_course_cmd_args args) false none
      match r with
      | .error e => ((.error e, t1 ++ t2), fs)
      | .ok _ =>
        let target_dir := if truthyStr args.output_dir then args.output_dir.getD ""
                          else DEFAULT_VAULT_DIR
        ((.ok ("Course " ++ args.course_id ++ " downloaded successfully to " ++ target_dir),
          t1 ++ t2),
         move_downloaded_files fs)

/-- Embeds `dedao_download_article`: auth gate, captured `article dl ID [-t CODE]`
run, then relocation into `output_dir or DEFAULT_VAULT_DIR` and a
confirmation string naming that directory. -/
def dedao_download_article (w : World) (fs : FS) (args : DownloadArticleArgs) :
    (Except PyError String × List Invocation) × FS :=
  let (a, t1) := check_dedao_auth w
  match a with
  | .error e => ((.error e, t1), fs)
  | .ok authed =>
    if !authed then ((.error (.runtimeError not_logged_in_msg), t1), fs)
    else
      let (r, t2) := execute_dedao_dl w (download_article_cmd_args args) false none
      match r with
      | .error e => ((.error e, t1 ++ t2), fs)
      | .ok _ =>
        let target_dir := if truthyStr args.output_dir then args.output_dir.getD ""
                          else DEFAULT_VAULT_DIR
        ((.ok ("Article " ++ args.article_id ++ " downloaded successfully to " ++ target_dir),
          t1 ++ t2),
         move_downloaded_files fs)

/-! ## Fixture worlds for witnesses and counterexamples -/

/-- Binary present, every run exits 0 with empty output. -/
def okWorld : World := ⟨true, fun _ => (0, "", "")⟩

/-- Binary present, `dedao-dl who` exits 1 (not authenticated), everything
else exits 0. -/
def authFailWorld : World :=
  ⟨true, fun a => if a = ["dedao-dl", "who"] then (1, "", "") else (0, "", "")⟩

/-- Binary absent. -/
def missingWorld : World := ⟨false, fun _ => (0, "", "")⟩

/-- Binary present; `dedao-dl fail` exits 2 with stderr `boom`, everything
else exits 0 with stdout `out`. -/
def mixedWorld : World :=
  ⟨true, fun a => if a = ["dedao-dl", "fail"] then (2, "", "boom") else (0, "out", "")⟩

/-! ## Claims -/

/-- C2: the download format mapping is total and fixed — course formats map
mp3 to "1", pdf to "2", markdown to "3"; article formats map pdf to "2",
markdown to "3"; "mp3" is rejected by the article format validator; and
every download call with a set format carries exactly the mapped code after
the `-t` flag (courses additionally carry the unconditional `-c` flag). -/
theorem C2_format_mapping (cargs : DownloadCourseArgs) (aargs : DownloadArticleArgs)
    (f : CourseFormat) (g : ArticleFormat)
    (hc : cargs.format = some f) (ha : aargs.format = some g) :
    format_map_course .mp3 = "1" ∧ format_map_course .pdf = "2" ∧
    format_map_course .markdown = "3" ∧
    format_map_article .pdf = "2" ∧ format_map_article .markdown = "3" ∧
    parseArticleFormat "mp3" = none ∧
    download_course_cmd_args cargs =
      ["dl", cargs.course_id, "-t", format_map_course f, "-c"] ∧
    download_article_cmd_args aargs =
      ["article", "dl", aargs.article_id, "-t", format_map_article g] := by
  refine ⟨rfl, rfl, rfl, rfl, rfl, rfl, ?_, ?_⟩ <;>
    simp [download_course_cmd_args, download_article_cmd_args, hc, ha]

/-- C2 witness at format mp3 for a course and pdf for an article. -/
theorem C2_format_mapping_witness :
    (⟨"123", some .mp3, none⟩ : DownloadCourseArgs).format = some CourseFormat.mp3 ∧
    (⟨"a9", some .pdf, none⟩ : DownloadArticleArgs).format = some ArticleFormat.pdf ∧
    download_course_cmd_args ⟨"123", some .mp3, none⟩ = ["dl", "123", "-t", "1", "-c"] ∧
    download_article_cmd_args ⟨"a9", some .pdf, none⟩ = ["article", "dl", "a9", "-t", "2"] :=
  ⟨rfl, rfl,
   (C2_format_mapping ⟨"123", some .mp3, none⟩ ⟨"a9", some .pdf, none⟩ .mp3 .pdf rfl rfl).2.2.2.2.2.2.1,
   (C2_format_mapping ⟨"123", some .mp3, none⟩ ⟨"a9", some .pdf, none⟩ .mp3 .pdf rfl rfl).2.2.2.2.2.2.2⟩

/-- C10: an explicit `format=None` suppresses the `-t` flag entirely: the
course vector is exactly `["dl", id, "-c"]` and the article vector is
exactly `["article", "dl", id]`. -/
theorem C10_format_none_no_flag (cargs : DownloadCourseArgs) (aargs : DownloadArticleArgs)
    (hc : cargs.format = none) (ha : aargs.format = none) :
    download_course_cmd_args cargs = ["dl", cargs.course_id, "-c"] ∧
    download_article_cmd_args aargs = ["article", "dl", aargs.article_id] := by
  simp [download_course_cmd_args, download_article_cmd_args, hc, ha]

/-- C10 witness at concrete argument records with `format := none`. -/
theorem C10_format_none_no_flag_witness :
    (⟨"123", none, none⟩ : DownloadCourseArgs).format = none ∧
    (⟨"a9", none, none⟩ : DownloadArticleArgs).format = none ∧
    download_course_cmd_args ⟨"123", none, none⟩ = ["dl", "123", "-c"] ∧
    download_article_cmd_args ⟨"a9", none, none⟩ = ["article", "dl", "a9"] :=
  ⟨rfl, rfl,
   (C10_format_none_no_flag ⟨"123", none, none⟩ ⟨"a9", none, none⟩ rfl rfl).1,
   (C10_format_none_no_flag ⟨"123", none, none⟩ ⟨"a9", none, none⟩ rfl rfl).2⟩

/-- C5: when the output subdirectory does not exist, relocation is a total
no-op — the whole filesystem slice, in particular the destination directory
and its existence flag, is returned unchanged, and no exception arises (the
function is total). -/
theorem C5_relocation_noop (fs : FS) (h : fs.outputExists = false) :
    move_downloaded_files fs = fs := by
  simp [move_downloaded_files, h]

/-- C5 witness: output subdirectory absent, destination absent — relocation
changes nothing (in particular the destination is not created). -/
theorem C5_relocation_noop_witness :
    (FS.mk false [] false [("old", Entry.file "x")]).outputExists = false ∧
    move_downloaded_files ⟨false, [], false, [("old", Entry.file "x")]⟩ =
      ⟨false, [], false, [("old", Entry.file "x")]⟩ :=
  ⟨rfl, C5_relocation_noop ⟨false, [], false, [("old", Entry.file "x")]⟩ rfl⟩

/-- C6: version comparison is numeric semantic ordering, not lexicographic:
1.2.0 against 1.3.0 reports the outdated message with the upgrade hint,
1.3.0 against itself reports up to date, the two messages are distinct, and
1.10.0 compares greater than 1.9.0 (reported up to date, where a
lexicographic string comparison would have called it outdated). -/
theorem C6_version_numeric_ordering :
    check_version_compatibility (some "1.2.0") (some "1.3.0") =
      (true, "dedao-dl v1.2.0 is installed (latest: v1.3.0)\n" ++ update_hint) ∧
    check_version_compatibility (some "1.3.0") (some "1.3.0") =
      (true, "Using dedao-dl v1.3.0 (up to date)") ∧
    check_version_compatibility (some "1.10.0") (some "1.9.0") =
      (true, "Using dedao-dl v1.10.0 (up to date)") ∧
    (check_version_compatibility (some "1.2.0") (some "1.3.0")).2 ≠
      (check_version_compatibility (some "1.3.0") (some "1.3.0")).2 := by
  decide

/-- C1: while the authentication probe reports not-logged-in (the binary
launches but `dedao-dl who` exits non-zero), every auth-gated tool raises
the descriptive please-log-in-first `RuntimeError`, and its invocation
trace is exactly the auth probe — no child process for the tool's own
command is spawned (and the filesystem slice is untouched for downloads). -/
theorem C1_auth_gate_before_spawn (w : World)
    (hp : w.binaryPresent = true) (hwho : (w.run ["dedao-dl", "who"]).1 ≠ 0)
    (la : ListCoursesArgs) (ca : CourseDetailsArgs) (dca : DownloadCourseArgs)
    (aa : ArticleDetailsArgs) (daa : DownloadArticleArgs) (fs fs2 : FS) :
    dedao_list_courses w la = (.error (.runtimeError not_logged_in_msg), [whoInv]) ∧
    dedao_course_details w ca = (.error (.runtimeError not_logged_in_msg), [whoInv]) ∧
    dedao_article_details w aa = (.error (.runtimeError not_logged_in_msg), [whoInv]) ∧
    dedao_download_course w fs dca = ((.error (.runtimeError not_logged_in_msg), [whoInv]), fs) ∧
    dedao_download_article w fs2 daa = ((.error (.runtimeError not_logged_in_msg), [whoInv]), fs2) := by
  have hb : ((w.run ["dedao-dl", "who"]).1 == 0) = false := by
    simpa using hwho
  refine ⟨?_, ?_, ?_, ?_, ?_⟩ <;>
    simp [dedao_list_courses, dedao_course_details, dedao_article_details,
      dedao_download_course, dedao_download_article, check_dedao_auth, hp, hb]

/-- C1 witness: a concrete world where the binary is present and the auth
probe exits 1. -/
theorem C1_auth_gate_before_spawn_witness :
    authFailWorld.binaryPresent = true ∧
    (authFailWorld.run ["dedao-dl", "who"]).1 ≠ 0 ∧
    dedao_list_courses authFailWorld ⟨some false⟩ =
      (.error (.runtimeError not_logged_in_msg), [whoInv]) :=
  ⟨rfl, by decide,
   (C1_auth_gate_before_spawn authFailWorld rfl (by decide)
      ⟨some false⟩ ⟨"c1"⟩ ⟨"c1", some .pdf, none⟩ ⟨"a1"⟩ ⟨"a1", some .pdf, none⟩
      ⟨true, [], true, []⟩ ⟨true, [], true, []⟩).1⟩

/-- C9: with the binary present, a captured execution returns the child's
stdout exactly when the child exits zero and raises `CalledProcessError`
carrying the exit code and captured stderr exactly when it exits non-zero;
an interactive execution returns the fixed generic completion string
whatever the child's exit status (the statement quantifies over every
world, hence every exit status). -/
theorem C9_executor_modes (w : World) (args : List String) (cwd : Option String)
    (hw : installedB w = true) :
    ((w.run (["dedao-dl"] ++ args)).1 = 0 →
      (execute_dedao_dl w args false cwd).1 = .ok (w.run (["dedao-dl"] ++ args)).2.1) ∧
    ((w.run (["dedao-dl"] ++ args)).1 ≠ 0 →
      (execute_dedao_dl w args false cwd).1 =
        .error (.calledProcessError (w.run (["dedao-dl"] ++ args)).1
          (w.run (["dedao-dl"] ++ args)).2.2)) ∧
    (execute_dedao_dl w args true cwd).1 = .ok "Interactive command completed" := by
  refine ⟨fun h0 => ?_, fun hn => ?_, ?_⟩
  · simp [execute_dedao_dl, check_dedao_dl, hw]
    exact h0
  · simp [execute_dedao_dl, check_dedao_dl, hw]
    exact hn
  · simp [execute_dedao_dl, check_dedao_dl, hw]

/-- C9 witness: in `mixedWorld`, `dedao-dl fail` exits 2 (captured run
raises with the captured stderr), `dedao-dl course` exits 0 (captured run
returns its stdout), and an interactive run of the failing command still
reports generic completion. -/
theorem C9_executor_modes_witness :
    installedB mixedWorld = true ∧
    (execute_dedao_dl mixedWorld ["course"] false none).1 = .ok "out" ∧
    (execute_dedao_dl mixedWorld ["fail"] false none).1 =
      .error (.calledProcessError 2 "boom") ∧
    (execute_dedao_dl mixedWorld ["fail"] true none).1 =
      .ok "Interactive command completed" :=
  ⟨by decide,
   (C9_executor_modes mixedWorld ["course"] none (by decide)).1 (by decide),
   (C9_executor_modes mixedWorld ["fail"] none (by decide)).2.1 (by decide),
   (C9_executor_modes mixedWorld ["fail"] none (by decide)).2.2⟩

/-- C3 counterexample: with the binary present, a login call with
`qrcode=false` and the (supplied) cookie `""` runs with no cookie flag at
all — the claim's clause "if a cookie is supplied the command runs captured
with a cookie flag carrying that value" fails at the empty cookie, because
the source tests the cookie with Python truthiness (`if args.cookie:`). -/
theorem C3_counterexample :
    (LoginArgs.mk (some false) (some "")).cookie ≠ none ∧
    (dedao_login okWorld ⟨some false, some ""⟩).2 =
      [helpInv, ⟨["dedao-dl", "login"], some TAIBAI_DIR, true⟩] ∧
    "--cookie" ∉ (Invocation.mk ["dedao-dl", "login"] (some TAIBAI_DIR) true).argv := by
  refine ⟨by decide, ?_, by decide⟩
  decide

/-- C3 (amended): with the binary present — qrcode truthy runs `login -q`
interactively and never consults the cookie; qrcode false with a non-empty
cookie runs captured with `--cookie VALUE`; qrcode false with no cookie, or
with an empty cookie, runs captured with no cookie flag. -/
theorem C3_login_paths (w : World) (hw : installedB w = true) :
    (∀ c c2 : Option String,
      dedao_login w ⟨some true, c⟩ = dedao_login w ⟨some true, c2⟩) ∧
    (dedao_login w ⟨some true, none⟩).2 =
      [helpInv, ⟨["dedao-dl", "login", "-q"], some TAIBAI_DIR, false⟩] ∧
    (∀ c : String, c ≠ "" →
      (dedao_login w ⟨some false, some c⟩).2 =
        [helpInv, ⟨["dedao-dl", "login", "--cookie", c], some TAIBAI_DIR, true⟩]) ∧
    (dedao_login w ⟨some false, none⟩).2 =
      [helpInv, ⟨["dedao-dl", "login"], some TAIBAI_DIR, true⟩] ∧
    (dedao_login w ⟨some false, some ""⟩).2 =
      [helpInv, ⟨["dedao-dl", "login"], some TAIBAI_DIR, true⟩] := by
  refine ⟨fun c c2 => rfl, ?_, fun c hc => ?_, ?_, ?_⟩
  · simp [dedao_login, execute_dedao_dl, check_dedao_dl, hw, truthyBool]
  · have hce : c.isEmpty = false := by
      cases hh : c.isEmpty
      · rfl
      · exact absurd ((String.isEmpty_iff c).mp hh) hc
    simp [dedao_login, execute_dedao_dl, check_dedao_dl, hw, truthyBool, truthyStr, hce]
    by_cases h0 : (w.run ["dedao-dl", "login", "--cookie", c]).1 = 0 <;> simp [h0]
  · simp [dedao_login, execute_dedao_dl, check_dedao_dl, hw, truthyBool, truthyStr]
    by_cases h0 : (w.run ["dedao-dl", "login"]).1 = 0 <;> simp [h0]
  · have he : truthyStr (some "") = false := rfl
    simp [dedao_login, execute_dedao_dl, check_dedao_dl, hw, truthyBool, he]
    by_cases h0 : (w.run ["dedao-dl", "login"]).1 = 0 <;> simp [h0]

/-- C3 witness: the amended login paths evaluated in `okWorld` with cookie
`"x"`. -/
theorem C3_login_paths_witness :
    installedB okWorld = true ∧ ("x" : String) ≠ "" ∧
    (dedao_login okWorld ⟨some false, some "x"⟩).2 =
      [helpInv, ⟨["dedao-dl", "login", "--cookie", "x"], some TAIBAI_DIR, true⟩] ∧
    (dedao_login okWorld ⟨some true, some "x"⟩).2 =
      [helpInv, ⟨["dedao-dl", "login", "-q"], some TAIBAI_DIR, false⟩] :=
  ⟨by decide, by decide,
   (C3_login_paths okWorld (by decide)).2.2.1 "x" (by decide),
   by
    rw [(C3_login_paths okWorld (by decide)).1 (some "x") none]
    exact (C3_login_paths okWorld (by decide)).2.1⟩

/-- C7 counterexample: with the binary absent, the auth-gated tool
`dedao_list_courses` fails with the propagated `FileNotFoundError` from the
auth probe (whose except clause catches only `CalledProcessError`), and
that failure's message does not contain the install instruction — refuting
the claim that every gated operation fails with a message containing it. -/
theorem C7_counterexample :
    (dedao_list_courses missingWorld ⟨some false⟩).1 = .error .fileNotFound ∧
    containsSub (pyErrorMessage .fileNotFound) "go install" = false := by
  constructor
  · rfl
  · decide

/-- C7 (amended): with the binary absent, `dedao_login` fails immediately
with the `RuntimeError` carrying the install instruction, while every
auth-gated tool fails immediately with the auth probe's propagated
`FileNotFoundError`, whose message carries no install instruction; in every
case the trace is a single probe attempt — nothing is retried. -/
theorem C7_binary_missing (w : World) (hp : w.binaryPresent = false)
    (la : LoginArgs) (lc : ListCoursesArgs) (ca : CourseDetailsArgs)
    (dca : DownloadCourseArgs) (aa : ArticleDetailsArgs) (daa : DownloadArticleArgs)
    (fs fs2 : FS) :
    dedao_login w la = (.error (.runtimeError not_installed_msg), [helpInv]) ∧
    containsSub not_installed_msg "go install" = true ∧
    dedao_list_courses w lc = (.error .fileNotFound, [whoInv]) ∧
    dedao_course_details w ca = (.error .fileNotFound, [whoInv]) ∧
    dedao_article_details w aa = (.error .fileNotFound, [whoInv]) ∧
    dedao_download_course w fs dca = ((.error .fileNotFound, [whoInv]), fs) ∧
    dedao_download_article w fs2 daa = ((.error .fileNotFound, [whoInv]), fs2) ∧
    containsSub (pyErrorMessage .fileNotFound) "go install" = false := by
  have hw : installedB w = false := by simp [installedB, hp]
  refine ⟨?_, by decide, ?_, ?_, ?_, ?_, ?_, by decide⟩
  · cases hq : truthyBool la.qrcode <;>
      simp [dedao_login, execute_dedao_dl, check_dedao_dl, hq, hw]
  all_goals
    simp [dedao_list_courses, dedao_course_details, dedao_article_details,
      dedao_download_course, dedao_download_article, check_dedao_auth, hp]

/-- C7 witness: the amended behaviour evaluated in `missingWorld`. -/
theorem C7_binary_missing_witness :
    missingWorld.binaryPresent = false ∧
    dedao_login missingWorld ⟨some false, none⟩ =
      (.error (.runtimeError not_installed_msg), [helpInv]) ∧
    dedao_list_courses missingWorld ⟨some false⟩ = (.error .fileNotFound, [whoInv]) :=
  ⟨rfl,
   (C7_binary_missing missingWorld rfl ⟨some false, none⟩ ⟨some false⟩ ⟨"c1"⟩
      ⟨"c1", some .pdf, none⟩ ⟨"a1"⟩ ⟨"a1", some .pdf, none⟩
      ⟨true, [], true, []⟩ ⟨true, [], true, []⟩).1,
   (C7_binary_missing missingWorld rfl ⟨some false, none⟩ ⟨some false⟩ ⟨"c1"⟩
      ⟨"c1", some .pdf, none⟩ ⟨"a1"⟩ ⟨"a1", some .pdf, none⟩
      ⟨true, [], true, []⟩ ⟨true, [], true, []⟩).2.2.1⟩

/-- Every invocation `execute_dedao_dl` makes when its callers pass
`cwd=None` is either the presence probe or runs in the private state
directory. -/
theorem execute_trace_cwd (w : World) (args : List String) (i : Bool)
    (inv : Invocation) (h : inv ∈ (execute_dedao_dl w args i none).2) :
    inv = helpInv ∨ inv.cwd = some TAIBAI_DIR := by
  cases hw : installedB w <;> cases i <;>
    simp [execute_dedao_dl, check_dedao_dl, hw] at h <;>
    first
      | exact Or.inl h
      | rcases h with h | h
        · exact Or.inl h
        · rw [h]; exact Or.inr rfl

/-- Trace shape of `dedao_login`: its invocations are exactly those of the
one `execute_dedao_dl` call it makes. -/
theorem login_trace (w : World) (la : LoginArgs) :
    (dedao_login w la).2 = (execute_dedao_dl w ["login", "-q"] true none).2 ∨
    (dedao_login w la).2 = (execute_dedao_dl w ["login"] false none).2 ∨
    (dedao_login w la).2 =
      (execute_dedao_dl w ["login", "--cookie", la.cookie.getD ""] false none).2 := by
  cases hq : truthyBool la.qrcode
  · cases hc : truthyStr la.cookie
    · rcases hE : execute_dedao_dl w ["login"] false none with ⟨r, t⟩
      refine Or.inr (Or.inl ?_)
      cases r <;> simp [dedao_login, hq, hc, hE]
    · rcases hE : execute_dedao_dl w ["login", "--cookie", la.cookie.getD ""] false none
        with ⟨r, t⟩
      refine Or.inr (Or.inr ?_)
      cases r <;> simp [dedao_login, hq, hc, hE]
  · rcases hE : execute_dedao_dl w ["login", "-q"] true none with ⟨r, t⟩
    refine Or.inl ?_
    cases r <;> simp [dedao_login, hq, hE]

/-- Trace shape of `dedao_list_courses`: the auth probe alone, or the auth
probe followed by the executor's invocations. -/
theorem list_courses_trace (w : World) (la : ListCoursesArgs) :
    (dedao_list_courses w la).2 = [whoInv] ∨
    (dedao_list_courses w la).2 =
      [whoInv] ++ (execute_dedao_dl w (list_courses_cmd_args la) false none).2 := by
  cases hb : w.binaryPresent
  · exact Or.inl (by simp [dedao_list_courses, check_dedao_auth, hb])
  · rcases hE : execute_dedao_dl w (list_courses_cmd_args la) false none with ⟨r, t⟩
    cases hA : (w.run ["dedao-dl", "who"]).1 == 0
    · exact Or.inl (by simp [dedao_list_courses, check_dedao_auth, hb, hA])
    · exact Or.inr (by simp [dedao_list_courses, check_dedao_auth, hb, hA, hE])

/-- Trace shape of `dedao_course_details`. -/
theorem course_details_trace (w : World) (ca : CourseDetailsArgs) :
    (dedao_course_details w ca).2 = [whoInv] ∨
    (dedao_course_details w ca).2 =
      [whoInv] ++ (execute_dedao_dl w (course_details_cmd_args ca) false none).2 := by
  cases hb : w.binaryPresent
  · exact Or.inl (by simp [dedao_course_details, check_dedao_auth, hb])
  · rcases hE : execute_dedao_dl w (course_details_cmd_args ca) false none with ⟨r, t⟩
    cases hA : (w.run ["dedao-dl", "who"]).1 == 0
    · exact Or.inl (by simp [dedao_course_details, check_dedao_auth, hb, hA])
    · exact Or.inr (by simp [dedao_course_details, check_dedao_auth, hb, hA, hE])

/-- Trace shape of `dedao_article_details`. -/
theorem article_details_trace (w : World) (aa : ArticleDetailsArgs) :
    (dedao_article_details w aa).2 = [whoInv] ∨
    (dedao_article_details w aa).2 =
      [whoInv] ++ (execute_dedao_dl w (article_details_cmd_args aa) false none).2 := by
  cases hb : w.binaryPresent
  · exact Or.inl (by simp [dedao_article_details, check_dedao_auth, hb])
  · rcases hE : execute_dedao_dl w (article_details_cmd_args aa) false none with ⟨r, t⟩
    cases hA : (w.run ["dedao-dl", "who"]).1 == 0
    · exact Or.inl (by simp [dedao_article_details, check_dedao_auth, hb, hA])
    · exact Or.inr (by simp [dedao_article_details, check_dedao_auth, hb, hA, hE])

/-- Trace shape of `dedao_download_course`. -/
theorem download_course_trace (w : World) (fs : FS) (dca : DownloadCourseArgs) :
    (dedao_download_course w fs dca).1.2 = [whoInv] ∨
    (dedao_download_course w fs dca).1.2 =
      [whoInv] ++ (execute_dedao_dl w (download_course_cmd_args dca) false none).2 := by
  cases hb : w.binaryPresent
  · exact Or.inl (by simp [dedao_download_course, check_dedao_auth, hb])
  · rcases hE : execute_dedao_dl w (download_course_cmd_args dca) false none with ⟨r, t⟩
    cases hA : (w.run ["dedao-dl", "who"]).1 == 0
    · exact Or.inl (by simp [dedao_download_course, check_dedao_auth, hb, hA])
    · refine Or.inr ?_
      cases r <;> simp [dedao_download_course, check_dedao_auth, hb, hA, hE]

/-- Trace shape of `dedao_download_article`. -/
theorem download_article_trace (w : World) (fs : FS) (daa : DownloadArticleArgs) :
    (dedao_download_article w fs daa).1.2 = [whoInv] ∨
    (dedao_download_article w fs daa).1.2 =
      [whoInv] ++ (execute_dedao_dl w (download_article_cmd_args daa) false none).2 := by
  cases hb : w.binaryPresent
  · exact Or.inl (by simp [dedao_download_article, check_dedao_auth, hb])
  · rcases hE : execute_dedao_dl w (download_article_cmd_args daa) false none with ⟨r, t⟩
    cases hA : (w.run ["dedao-dl", "who"]).1 == 0
    · exact Or.inl (by simp [dedao_download_article, check_dedao_auth, hb, hA])
    · refine Or.inr ?_
      cases r <;> simp [dedao_download_article, check_dedao_auth, hb, hA, hE]

/-- C8 counterexample: the presence probe (`dedao-dl --help`) occurs in the
invocation trace of `dedao_list_courses`, and its working directory is not
the private state directory (no `cwd=` argument is passed, so the server
process's inherited working directory is used) — refuting the claim that
every external-binary invocation runs in the private state directory. -/
theorem C8_counterexample :
    helpInv ∈ (dedao_list_courses okWorld ⟨some false⟩).2 ∧
    helpInv.cwd ≠ some TAIBAI_DIR := by
  constructor
  · decide
  · decide

/-- C8 (amended): the presence probe passes no working directory (it runs
in the server's inherited one); every other external-binary invocation this
core makes — the auth probe and every tool command — runs in the private
state directory. -/
theorem C8_cwd_invariant (w : World) (inv : Invocation)
    (la : LoginArgs) (lc : ListCoursesArgs) (ca : CourseDetailsArgs)
    (dca : DownloadCourseArgs) (aa : ArticleDetailsArgs) (daa : DownloadArticleArgs)
    (fs fs2 : FS)
    (h : inv ∈ (check_dedao_auth w).2 ∨ inv ∈ (dedao_login w la).2 ∨
      inv ∈ (dedao_list_courses w lc).2 ∨ inv ∈ (dedao_course_details w ca).2 ∨
      inv ∈ (dedao_article_details w aa).2 ∨
      inv ∈ (dedao_download_course w fs dca).1.2 ∨
      inv ∈ (dedao_download_article w fs2 daa).1.2) :
    helpInv.cwd = none ∧ (inv = helpInv ∨ inv.cwd = some TAIBAI_DIR) := by
  refine ⟨rfl, ?_⟩
  have hwho : whoInv.cwd = some TAIBAI_DIR := rfl
  rcases h with h | h | h | h | h | h | h
  · simp [check_dedao_auth] at h
    exact Or.inr (h ▸ hwho)
  · rcases login_trace w la with ht | ht | ht <;> rw [ht] at h <;>
      exact execute_trace_cwd w _ _ inv h
  · rcases list_courses_trace w lc with ht | ht <;> rw [ht] at h
    · simp at h; exact Or.inr (h ▸ hwho)
    · rcases List.mem_append.mp h with h1 | h2
      · simp at h1; exact Or.inr (h1 ▸ hwho)
      · exact execute_trace_cwd w _ _ inv h2
  · rcases course_details_trace w ca with ht | ht <;> rw [ht] at h
    · simp at h; exact Or.inr (h ▸ hwho)
    · rcases List.mem_append.mp h with h1 | h2
      · simp at h1; exact Or.inr (h1 ▸ hwho)
      · exact execute_trace_cwd w _ _ inv h2
  · rcases article_details_trace w aa with ht | ht <;> rw [ht] at h
    · simp at h; exact Or.inr (h ▸ hwho)
    · rcases List.mem_append.mp h with h1 | h2
      · simp at h1; exact Or.inr (h1 ▸ hwho)
      · exact execute_trace_cwd w _ _ inv h2
  · rcases download_course_trace w fs dca with ht | ht <;> rw [ht] at h
    · simp at h; exact Or.inr (h ▸ hwho)
    · rcases List.mem_append.mp h with h1 | h2
      · simp at h1; exact Or.inr (h1 ▸ hwho)
      · exact execute_trace_cwd w _ _ inv h2
  · rcases download_article_trace w fs2 daa with ht | ht <;> rw [ht] at h
    · simp at h; exact Or.inr (h ▸ hwho)
    · rcases List.mem_append.mp h with h1 | h2
      · simp at h1; exact Or.inr (h1 ▸ hwho)
      · exact execute_trace_cwd w _ _ inv h2

/-- C8 witness: the auth-probe invocation inside a concrete
`dedao_list_courses` run indeed uses the private state directory. -/
theorem C8_cwd_invariant_witness :
    whoInv ∈ (dedao_list_courses okWorld ⟨some false⟩).2 ∧
    (whoInv = helpInv ∨ whoInv.cwd = some TAIBAI_DIR) :=
  ⟨by decide,
   (C8_cwd_invariant okWorld whoInv ⟨some false, none⟩ ⟨some false⟩ ⟨"c1"⟩
      ⟨"c1", some .pdf, none⟩ ⟨"a1"⟩ ⟨"a1", some .pdf, none⟩
      ⟨true, [], true, []⟩ ⟨true, [], true, []⟩
      (Or.inr (Or.inr (Or.inl (by decide))))).2⟩

/-- Looking a name up in an appended listing falls through to the second
part when the first has no entry of that name. -/
theorem lookupName_append (n : String) (l₁ l₂ : Listing) :
    lookupName n (l₁ ++ l₂) =
      match lookupName n l₁ with
      | some e => some e
      | none => lookupName n l₂ := by
  induction l₁ with
  | nil => simp [lookupName]
  | cons p rest ih =>
    obtain ⟨m, e⟩ := p
    by_cases h : m = n <;> simp [lookupName, h, ih]

/-- Removing a name removes every entry under it. -/
theorem lookupName_removeName_self (n : String) (d : Listing) :
    lookupName n (removeName n d) = none := by
  induction d with
  | nil => rfl
  | cons p rest ih =>
    obtain ⟨m, e⟩ := p
    by_cases h : m = n <;> simp [removeName, lookupName, h, ih]

/-- Removing one name leaves lookups of other names unchanged. -/
theorem lookupName_removeName_ne (n m : String) (d : Listing) (h : n ≠ m) :
    lookupName n (removeName m d) = lookupName n d := by
  induction d with
  | nil => rfl
  | cons p rest ih =>
    obtain ⟨k, e⟩ := p
    have hmn : ¬m = n := fun hh => h hh.symm
    by_cases hk : k = m
    · have hkn : ¬k = n := fun hh => h (hh.symm.trans hk)
      simp [removeName, lookupName, hk, hkn, hmn, ih]
    · by_cases hn : k = n <;> simp [removeName, lookupName, hk, hn, hmn, h, ih]

/-- Removal only drops entries. -/
theorem mem_removeName (n : String) (p : String × Entry) (d : Listing)
    (h : p ∈ removeName n d) : p ∈ d := by
  induction d with
  | nil => exact absurd h (List.not_mem_nil p)
  | cons q rest ih =>
    obtain ⟨m, e⟩ := q
    by_cases hm : m = n
    · simp only [removeName, if_pos hm] at h
      exact List.mem_cons_of_mem _ (ih h)
    · simp only [removeName, if_neg hm] at h
      rcases List.mem_cons.mp h with h1 | h2
      · exact h1 ▸ List.mem_cons_self _ _
      · exact List.mem_cons_of_mem _ (ih h2)

/-- After removal, no entry of the removed name remains. -/
theorem not_mem_removeName_self (n : String) (e : Entry) (d : Listing) :
    (n, e) ∉ removeName n d := by
  induction d with
  | nil => exact List.not_mem_nil _
  | cons q rest ih =>
    obtain ⟨m, f⟩ := q
    by_cases hm : m = n
    · simpa [removeName, hm] using ih
    · simp only [removeName, if_neg hm]
      intro h
      rcases List.mem_cons.mp h with h1 | h2
      · exact hm (congrArg Prod.fst h1).symm
      · exact ih h2

/-- Names not handled by the remaining loop iterations look up to the same
entry before and after those iterations. -/
theorem moveLoop_lookup_notmem (items : Listing) (n : String)
    (h : n ∉ items.map Prod.fst) :
    ∀ dest, lookupName n (moveLoop items dest) = lookupName n dest := by
  induction items with
  | nil => intro dest; rfl
  | cons p rest ih =>
    obtain ⟨m, f⟩ := p
    intro dest
    simp only [List.map_cons, List.mem_cons] at h
    push_neg at h
    have hmn : ¬m = n := fun hh => h.1 hh.symm
    rw [moveLoop, ih h.2, lookupName_append, lookupName_removeName_ne n m dest h.1]
    cases hl : lookupName n dest <;> simp [lookupName, hmn]

/-- Membership at a name not handled by the remaining loop iterations is
preserved backwards through them. -/
theorem moveLoop_mem_notmem (items : Listing) (n : String) (e2 : Entry)
    (h : n ∉ items.map Prod.fst) :
    ∀ dest, (n, e2) ∈ moveLoop items dest → (n, e2) ∈ dest := by
  induction items with
  | nil => intro dest hm; exact hm
  | cons p rest ih =>
    obtain ⟨m, f⟩ := p
    intro dest hm
    simp only [List.map_cons, List.mem_cons] at h
    push_neg at h
    have h2 := ih h.2 _ hm
    rcases List.mem_append.mp h2 with h3 | h4
    · exact mem_removeName m _ dest h3
    · exact absurd (congrArg Prod.fst (List.mem_singleton.mp h4)) h.1

/-- Core relocation property: an entry of the source listing (whose names
are distinct, as a real directory's are) ends up as the unique entry under
its name in the final destination. -/
theorem moveLoop_fresh (items : Listing) (n : String) (e : Entry)
    (hnd : (items.map Prod.fst).Nodup) (hmem : (n, e) ∈ items) :
    ∀ dest, lookupName n (moveLoop items dest) = some e ∧
      ∀ e2, (n, e2) ∈ moveLoop items dest → e2 = e := by
  induction items with
  | nil => exact absurd hmem (List.not_mem_nil _)
  | cons p rest ih =>
    obtain ⟨m, f⟩ := p
    intro dest
    simp only [List.map_cons, List.nodup_cons] at hnd
    rcases List.mem_cons.mp hmem with heq | hmem2
    · obtain ⟨rfl, rfl⟩ := Prod.mk.injEq .. ▸ heq
      have hnotin : n ∉ rest.map Prod.fst := hnd.1
      rw [moveLoop]
      constructor
      · rw [moveLoop_lookup_notmem rest n hnotin, lookupName_append,
          lookupName_removeName_self]
        simp [lookupName]
      · intro e2 hm
        have h2 := moveLoop_mem_notmem rest n e2 hnotin _ hm
        rcases List.mem_append.mp h2 with h3 | h4
        · exact absurd h3 (not_mem_removeName_self n e2 dest)
        · exact (Prod.mk.injEq .. ▸ List.mem_singleton.mp h4).2
    · rw [moveLoop]
      exact ih hnd.2 hmem2 _

/-- C4: for a relocation run with an existing output subdirectory whose
entry names are distinct, every source entry ends up in the destination
under its original name — the destination holds exactly the freshly
produced entry for that name, so any stale entry of the same name is gone. -/
theorem C4_overwrite_semantics (fs : FS) (n : String) (e : Entry)
    (hex : fs.outputExists = true)
    (hnd : (fs.output.map Prod.fst).Nodup)
    (hmem : (n, e) ∈ fs.output) :
    lookupName n (move_downloaded_files fs).dest = some e ∧
    ∀ e2, (n, e2) ∈ (move_downloaded_files fs).dest → e2 = e := by
  rw [move_downloaded_files, if_pos hex]
  exact moveLoop_fresh fs.output n e hnd hmem fs.dest

/-- C4 witness: a fresh file `a` in the output directory replaces a stale
destination entry of the same name. -/
theorem C4_overwrite_semantics_witness :
    (FS.mk true [("a", Entry.file "fresh")] true [("a", Entry.file "stale")]).outputExists
      = true ∧
    (([("a", Entry.file "fresh")] : Listing).map Prod.fst).Nodup ∧
    ("a", Entry.file "fresh") ∈ ([("a", Entry.file "fresh")] : Listing) ∧
    lookupName "a"
      (move_downloaded_files
        ⟨true, [("a", Entry.file "fresh")], true, [("a", Entry.file "stale")]⟩).dest =
      some (Entry.file "fresh") :=
  ⟨rfl, by decide, by decide,
   (C4_overwrite_semantics ⟨true, [("a", Entry.file "fresh")], true, [("a", Entry.file "stale")]⟩
      "a" (Entry.file "fresh") rfl (by decide) (by decide)).1⟩

end Taibai
